import Mathlib

/-!
Verification development for the SermonTranslator real-time capture,
segmentation, transcription and translation pipeline (src/asr.py and
src/translation.py).

`AudioCaptureThread.__init__` (asr.py lines 29-46) misspells three
attribute names relative to their readers: it binds `sample_rate`,
`silience_threshold` and `current_buffer`, while the capture code reads
`samplerate` (line 77), `silence_threshold` (line 96) and
`_current_buffer` (lines 102-118).  The capture embedding therefore has
two layers: `AudioCaptureThread.initAttrs` / `readAttr` model Python
attribute lookup on the instance after `__init__`;
`AudioCaptureThread.runActual` and `processFrameActual` are the loop as
shipped — the stream setup's `AttributeError` is caught at line 80 and
`run` returns before the loop, and the loop body raises `AttributeError`
at line 96 on every frame — while `AudioCaptureThread.processFrame` is
the loop body's would-be behaviour in the dead branch where the lookups
succeed, a pure step function on an explicit state (utterance buffer,
silence timer, bounded segment queue, warning counter).  Timestamps and
RMS energies are rationals; each frame carries the RMS value line 94
computes for it (the square root itself is irrational, and every claim
constrains frames only through line 96's comparison
`rms < silence_threshold`).

The device callback `AudioCaptureThread.audio_callback` (lines 48-71), the
transcriber iteration of `ASRTranscriber.run` (lines 165-200), the
controller operations `ASR.set_mode` (lines 254-261) and `ASR.stop`
(lines 231-252), and `Translator.translate_en_to_ar` /
`translate_ar_to_en` (translation.py lines 42-56) are embedded likewise;
queues are lists with the front as the oldest element, exceptions are
`Except`, and Python truthiness of strings/lists is emptiness.
-/

/-- The whitespace set of CPython's `str.strip()` / `str.isspace()`
(Py_UNICODE_ISSPACE): U+0009-U+000D, U+001C-U+001F, the space, U+0085
(NEL), U+00A0 (NBSP), U+1680, the Unicode space separators
U+2000-U+200A, U+2028, U+2029, U+202F, U+205F and U+3000. -/
def pyIsSpace (c : Char) : Bool :=
  (0x09 ≤ c.toNat && c.toNat ≤ 0x0d) ||
  (0x1c ≤ c.toNat && c.toNat ≤ 0x1f) ||
  c.toNat = 0x20 || c.toNat = 0x85 || c.toNat = 0xa0 || c.toNat = 0x1680 ||
  (0x2000 ≤ c.toNat && c.toNat ≤ 0x200a) ||
  c.toNat = 0x2028 || c.toNat = 0x2029 || c.toNat = 0x202f ||
  c.toNat = 0x205f || c.toNat = 0x3000

/-- Python's `text.strip()`: remove leading and trailing whitespace. -/
def pyStrip (s : String) : String :=
  String.mk ((((s.data.dropWhile pyIsSpace).reverse).dropWhile pyIsSpace).reverse)

namespace AudioCaptureThread

/-- One audio block as seen by the segmentation loop: the wall-clock time
`time` at which the loop processes it (`current_time = time.time()`,
asr.py line 95), the RMS energy `rms` the loop computes for it at line 94,
and the sample payload `samples` that line 118 would append to the
utterance buffer. -/
structure Frame where
  time : ℚ
  rms : ℚ
  samples : List ℚ
deriving DecidableEq, Repr

/-- Configuration of the segmentation loop: `silence_sec` (src default
0.8), `silence_threshold` (src default 0.01), and the capacity of the
segment queue (`queue.Queue(maxsize=5)`, asr.py line 217). -/
structure CaptureConfig where
  silence_sec : ℚ
  silence_threshold : ℚ
  seg_capacity : Nat
deriving DecidableEq, Repr

/-- State of the segmentation loop: the utterance buffer (list of
buffered speech frames' samples), the silence start time (None = unset),
the segment queue contents (front = oldest), and a count of the
"transcription queue is full" warnings printed at line 114. -/
structure CaptureState where
  current_buffer : List (List ℚ)
  silence_start_time : Option ℚ
  segment_queue : List (List ℚ)
  warnings : Nat
deriving DecidableEq, Repr

/-- The instance attribute names `AudioCaptureThread.__init__` binds
(asr.py lines 29-46; the base `threading.Thread.__init__` binds only its
own private names, none of them read by the capture code).  Note the
misspellings: line 32 binds `sample_rate` while line 77 reads
`samplerate`; line 34 binds `silience_threshold` while line 96 reads
`silence_threshold`; line 36 binds `current_buffer` while lines 102, 104,
106 and 118 read `_current_buffer`. -/
def initAttrs : List String :=
  ["segment_queue", "stop_event", "sample_rate", "silence_sec",
   "silience_threshold", "current_buffer", "_silence_start_time",
   "_audio_frame_queue", "block_size", "_stream_started", "_stream"]

/-- A Python attribute read on the capture thread after `__init__`:
succeeds exactly on the bound names and raises `AttributeError`
otherwise. -/
def readAttr (name : String) : Except String Unit :=
  if initAttrs.contains name then Except.ok ()
  else Except.error ("AttributeError: " ++ name)

/-- The body of the `while` loop of `AudioCaptureThread.run` (asr.py
lines 92-120) as it *would* execute if the attribute names it reads were
bound — the continuation of `processFrameActual`'s successful-lookup
branch, dead code in the shipped source (see `initAttrs`).  Lines 98-100
set the silence timer to the current time when it is unset, so at the
emission test of line 102 the timer's value is
`st.silence_start_time.getD f.time`; emission requires elapsed time
`≥ silence_sec` and a non-empty buffer, and pushes the concatenated
buffer onto the segment queue, incrementing the warning count instead
when the queue is full (lines 110-114).  A frame at or above the
threshold is appended to the buffer and clears the timer (lines
115-120). -/
def processFrame (cfg : CaptureConfig) (st : CaptureState) (f : Frame) :
    CaptureState :=
  if f.rms < cfg.silence_threshold then
    if f.time - st.silence_start_time.getD f.time ≥ cfg.silence_sec ∧
        st.current_buffer ≠ [] then
      if st.segment_queue.length < cfg.seg_capacity then
        { current_buffer := []
          silence_start_time := none
          segment_queue := st.segment_queue ++ [st.current_buffer.flatten]
          warnings := st.warnings }
      else
        { current_buffer := []
          silence_start_time := none
          segment_queue := st.segment_queue
          warnings := st.warnings + 1 }
    else
      { st with silence_start_time := some (st.silence_start_time.getD f.time) }
  else
    { st with
      current_buffer := st.current_buffer ++ [f.samples]
      silence_start_time := none }

/-- The body of the `while` loop as the shipped source actually executes
it: lines 92-95 compute the frame array, its RMS and the current time
without touching unbound attributes, then line 96 evaluates
`self.silence_threshold` — a name `__init__` never binds (it binds
`silience_threshold`, line 34) — so every processed frame raises
`AttributeError` before any state change; the `AttributeError`s waiting
at lines 102 and 118 (`_current_buffer`, bound as `current_buffer`) are
never reached.  The successful-lookup branch, dead in the shipped source,
would continue with the intended body `processFrame`. -/
def processFrameActual (cfg : CaptureConfig) (st : CaptureState)
    (f : Frame) : Except String CaptureState :=
  match readAttr "silence_threshold" with
  | Except.error e => Except.error e
  | Except.ok _ => Except.ok (processFrame cfg st f)

/-- The loop state at thread start: empty buffer, unset timer, empty
segment queue (asr.py lines 36-40). -/
def initState : CaptureState :=
  { current_buffer := []
    silence_start_time := none
    segment_queue := []
    warnings := 0 }

/-- `AudioCaptureThread.run` (asr.py lines 73-127) as the shipped source
actually executes it: line 77 evaluates `self.samplerate`, a name
`__init__` never binds (it binds `sample_rate`, line 32); the resulting
`AttributeError` is caught by the `except` at line 80, a message is
printed, and `run` returns before the processing loop, leaving the state
untouched — no frame is ever processed and nothing is ever enqueued.  In
the dead branch where the stream starts, the loop would fold
`processFrameActual` over the input frames, an uncaught exception
aborting the fold (and the thread). -/
def runActual (cfg : CaptureConfig) (frames : List Frame) :
    Except String CaptureState :=
  match readAttr "samplerate" with
  | Except.error _ => Except.ok initState
  | Except.ok _ => frames.foldlM (processFrameActual cfg) initState

/-- `k` consecutive quiet frames, the first processed at time `a`,
subsequent ones `d` (= block duration) apart, each of RMS `r` and sample
payload `xs`. -/
def quietFrames (a d r : ℚ) (xs : List ℚ) : Nat → List Frame
  | 0 => []
  | Nat.succ k => ⟨a, r, xs⟩ :: quietFrames (a + d) d r xs k

/-- The synthetic frame sequence of the segmentation-boundary property:
three loud frames (RMS `r1`,`r2`,`r3`, samples `x1`,`x2`,`x3`) followed by
`k` quiet frames (RMS `rq`, payload `xq`), processed at consecutive times
`0, d, 2d, ...` one block duration `d` apart. -/
def boundaryPattern (d r1 r2 r3 rq : ℚ) (x1 x2 x3 xq : List ℚ) (k : Nat) :
    List Frame :=
  [⟨0, r1, x1⟩, ⟨d, r2, x2⟩, ⟨2 * d, r3, x3⟩] ++ quietFrames (3 * d) d rq xq k

/-- The silence-merge frame sequence: two loud frames, `m` quiet frames,
two further loud frames, then `q` trailing quiet frames, processed at
consecutive times one block duration `d` apart. -/
def mergePattern (d r1 r2 r3 r4 rq : ℚ) (x1 x2 x3 x4 xq : List ℚ)
    (m q : Nat) : List Frame :=
  [⟨0, r1, x1⟩, ⟨d, r2, x2⟩] ++ quietFrames (2 * d) d rq xq m ++
    [⟨((m : ℚ) + 2) * d, r3, x3⟩, ⟨((m : ℚ) + 3) * d, r4, x4⟩] ++
    quietFrames (((m : ℚ) + 4) * d) d rq xq q

end AudioCaptureThread

open AudioCaptureThread in
/-- C1 (code bug): at the claim's own input — the pattern
`[loud]*3 ++ [quiet]*2` at the source defaults, where
`k * block_duration = 1.0 ≥ 0.8 = silence_duration` — the shipped loop
emits nothing and buffers nothing: `run` returns before the loop (the
unbound `samplerate`, asr.py line 77, is caught at line 80), and the loop
body would raise `AttributeError` on its very first frame (the unbound
`silence_threshold`, line 96). -/
theorem c1_segmentation_boundary_code_bug :
    runActual ⟨4/5, 1/100, 5⟩
      (boundaryPattern (1/2) 1 1 1 0 [1] [2] [3] [] 2) =
      Except.ok initState ∧
    initState.segment_queue = [] ∧
    initState.current_buffer = [] ∧
    processFrameActual ⟨4/5, 1/100, 5⟩ initState ⟨0, 1, [1]⟩ =
      Except.error "AttributeError: silence_threshold" :=
  ⟨rfl, rfl, rfl, rfl⟩

open AudioCaptureThread in
/-- C2 (code bug): the emission guard the claim describes belongs to a
loop the shipped program never runs — the loop body raises
`AttributeError` at line 96 on every frame from every state, and `run`
returns before the loop for every frame sequence, so no utterance is ever
pushed (the all-silence case included, but only vacuously). -/
theorem c2_emission_invariant_code_bug :
    (∀ (cfg : CaptureConfig) (st : CaptureState) (f : Frame),
      processFrameActual cfg st f =
        Except.error "AttributeError: silence_threshold") ∧
    (∀ (cfg : CaptureConfig) (frames : List Frame),
      runActual cfg frames = Except.ok initState) :=
  ⟨fun _ _ _ => rfl, fun _ _ => rfl⟩

open AudioCaptureThread in
/-- C3 (code bug): at the claim's own input — the merge pattern
`[loud]*2 ++ [quiet]*1 ++ [loud]*2` followed by a qualifying silence at
the source defaults — the shipped loop produces no utterance at all
(rather than the claimed single merged one): `run` exits before the loop,
and even from a mid-utterance state the loop body raises `AttributeError`
at line 96. -/
theorem c3_silence_merge_code_bug :
    runActual ⟨4/5, 1/100, 5⟩
      (mergePattern (1/2) 1 1 1 1 0 [1] [2] [3] [4] [] 1 3) =
      Except.ok initState ∧
    initState.segment_queue = [] ∧
    processFrameActual ⟨4/5, 1/100, 5⟩ ⟨[[1], [2]], some 1, [], 0⟩
      ⟨3/2, 0, []⟩ =
      Except.error "AttributeError: silence_threshold" :=
  ⟨rfl, rfl, rfl⟩

open AudioCaptureThread in
/-- C5 (code bug): in the very situation the claim describes — a full
capacity-5 segment queue, a non-empty buffer and a qualifying silence —
the loop body raises `AttributeError` at line 96 before reaching the
enqueue/warn of lines 110-114: the warning print is unreachable and no
utterance is ever discarded (or queued). -/
theorem c5_segment_queue_overflow_code_bug :
    processFrameActual ⟨4/5, 1/100, 5⟩
      ⟨[[9]], some 0, [[1], [2], [3], [4], [5]], 0⟩ ⟨1, 0, []⟩ =
      Except.error "AttributeError: silence_threshold" :=
  rfl

/-- `queue.Queue.put_nowait` on a bounded queue modelled as a list (front
is the oldest element): appends when below capacity, otherwise raises
`queue.Full`, modelled as `Except.error`. -/
def put_nowait {α : Type} (cap : Nat) (q : List α) (x : α) :
    Except Unit (List α) :=
  if q.length < cap then Except.ok (q ++ [x]) else Except.error ()

/-- `queue.Queue.get_nowait`: the oldest element and the remaining queue,
or `queue.Empty` on an empty queue. -/
def get_nowait {α : Type} (q : List α) : Except Unit (α × List α) :=
  match q with
  | [] => Except.error ()
  | y :: rest => Except.ok (y, rest)

namespace AudioCaptureThread

/-- The queue effect of `AudioCaptureThread.audio_callback` (asr.py lines
48-71): try a non-blocking insert; on `queue.Full` evict the oldest queued
frame (a concurrent `queue.Empty` is ignored) and retry the insert once;
if still full, drop the new frame. -/
def audio_callback {α : Type} (cap : Nat) (q : List α) (x : α) : List α :=
  if q.length < cap then q ++ [x]
  else
    let q1 := match q with
      | [] => q
      | _ :: rest => rest
    if q1.length < cap then q1 ++ [x] else q1

/-- `AudioCaptureThread.audio_callback` with its exception flow made
explicit: each `try/except` of the source is a `match` on the `Except`
result of the queue operation, the `status` argument only selects whether
a diagnostic is printed (returned as the second component), and an
uncaught exception would surface as `Except.error`.  The unused `nframes`
argument mirrors the callback's `frames` parameter. -/
def audio_callback_exc {α : Type} (cap : Nat) (q : List α) (x : α)
    (_nframes : Nat) (status : Bool) : Except Unit (List α × Bool) :=
  match put_nowait cap q x with
  | Except.ok q2 => Except.ok (q2, status)
  | Except.error _ =>
    let q1 := match get_nowait q with
      | Except.ok yrest => yrest.2
      | Except.error _ => q
    match put_nowait cap q1 x with
    | Except.ok q2 => Except.ok (q2, status)
    | Except.error _ => Except.ok (q1, status)

end AudioCaptureThread

open AudioCaptureThread in
/-- C4: inserting 11 frames through the device callback into the
capacity-10 frame queue with no intervening dequeues leaves exactly the
last 10 inserted frames, in insertion order: the 11th insert evicts the
oldest frame and the retried insertion succeeds. -/
theorem c4_frame_queue_drop_oldest :
    ∀ {α : Type} (x1 x2 x3 x4 x5 x6 x7 x8 x9 x10 x11 : α),
      List.foldl (audio_callback 10) ([] : List α)
        [x1, x2, x3, x4, x5, x6, x7, x8, x9, x10, x11] =
        [x2, x3, x4, x5, x6, x7, x8, x9, x10, x11] := by
  intro α x1 x2 x3 x4 x5 x6 x7 x8 x9 x10 x11
  simp [audio_callback]

open AudioCaptureThread in
/-- C9: for every queue contents, frame, frame count and status value, the
device callback returns normally — never `Except.error` — with the queue
transformed by the evict/retry/drop policy and a diagnostic emitted
exactly when a status condition was reported. -/
theorem c9_callback_never_raises :
    ∀ {α : Type} (cap : Nat) (q : List α) (x : α) (nframes : Nat)
      (status : Bool),
      audio_callback_exc cap q x nframes status =
        Except.ok (audio_callback cap q x, status) := by
  intro α cap q x nframes status
  cases q with
  | nil =>
    by_cases h0 : 0 < cap
    · simp [audio_callback_exc, audio_callback, put_nowait, get_nowait, h0]
    · simp [audio_callback_exc, audio_callback, put_nowait, get_nowait, h0]
  | cons y rest =>
    by_cases hlen : rest.length + 1 < cap
    · simp [audio_callback_exc, audio_callback, put_nowait, get_nowait, hlen]
    · by_cases h2 : rest.length < cap
      · simp [audio_callback_exc, audio_callback, put_nowait, get_nowait,
          hlen, h2]
      · simp [audio_callback_exc, audio_callback, put_nowait, get_nowait,
          hlen, h2]

namespace ASRTranscriber

/-- What one iteration of `ASRTranscriber.run` publishes for a dequeued
non-sentinel segment: the language hint passed to the acoustic model, the
text emitted to the display sink (`new_text.emit`), and the text sent to
the log sink (`logger.log`), each `none` when the corresponding call is
skipped. -/
structure InferOutput where
  language : String
  display : Option String
  logged : Option String
deriving DecidableEq, Repr

/-- The body of one `ASRTranscriber.run` iteration for a non-sentinel
segment (asr.py lines 173-200), with the acoustic model and the two
translation directions as black-box collaborators: the language hint is
"en" iff the observed mode is "EN->AR" (line 177), the transcript is
stripped (line 180), an empty transcript skips the rest (lines 184-186);
in mode "EN->AR" the display gets the Arabic translation and the log the
English source text, otherwise the display gets the English translation
and the log that same translated text (lines 188-200); the log call is
skipped when its text is empty. -/
def processSegment (mode : String) (transcribe : String → List ℚ → String)
    (en2ar ar2en : String → String) (segment : List ℚ) : InferOutput :=
  let language := if mode = "EN->AR" then "en" else "ar"
  let transcribed_text := pyStrip (transcribe language segment)
  if transcribed_text = "" then
    { language := language, display := none, logged := none }
  else if mode = "EN->AR" then
    let translated_text := en2ar transcribed_text
    { language := language
      display := some translated_text
      logged := if transcribed_text = "" then none else some transcribed_text }
  else
    let translated_text := ar2en transcribed_text
    { language := language
      display := some translated_text
      logged := if translated_text = "" then none else some translated_text }

/-- The inference loop's consumption of the segment queue (asr.py lines
165-172): dequeue until a sentinel (`None`, modelled as `none`) is seen;
returns the segments processed before the sentinel and whether the loop
exited via the sentinel `break`. -/
def drainUntilSentinel : List (Option (List ℚ)) → List (List ℚ) × Bool
  | [] => ([], false)
  | none :: _ => ([], true)
  | some s :: rest =>
    ((drainUntilSentinel rest).1.cons s, (drainUntilSentinel rest).2)

end ASRTranscriber

open ASRTranscriber in
/-- C6 counterexample to the claim as stated: in mode "AR->EN", with an
acoustic model transcribing the segment to "x" and an Arabic-to-English
engine translating "x" to "y", the log sink receives the translated text
"y", not the source-language text "x". -/
theorem c6_inference_log_counterexample :
    (processSegment "AR->EN" (fun _ _ => "x") (fun t => t) (fun _ => "y")
      []).logged = some "y" ∧
    some ("y" : String) ≠ some ("x" : String) := by
  constructor
  · decide
  · decide

open ASRTranscriber in
/-- C6 (amended): for a dequeued non-sentinel utterance, the loop selects
hint "en" and translates English-to-Arabic when the observed mode is
"EN->AR", and selects hint "ar" and translates Arabic-to-English
otherwise; the display sink receives the translated text, and the log sink
receives the English text — the source transcript in mode "EN->AR", the
translated output otherwise (skipped when that text is empty); nothing is
published when the stripped transcript is empty. -/
theorem c6_inference_directions :
    ∀ (transcribe : String → List ℚ → String) (en2ar ar2en : String → String)
      (segment : List ℚ),
      (pyStrip (transcribe "en" segment) ≠ "" →
        processSegment "EN->AR" transcribe en2ar ar2en segment =
          ⟨"en", some (en2ar (pyStrip (transcribe "en" segment))),
            some (pyStrip (transcribe "en" segment))⟩) ∧
      (∀ mode : String, mode ≠ "EN->AR" →
        pyStrip (transcribe "ar" segment) ≠ "" →
        processSegment mode transcribe en2ar ar2en segment =
          ⟨"ar", some (ar2en (pyStrip (transcribe "ar" segment))),
            if ar2en (pyStrip (transcribe "ar" segment)) = "" then none
            else some (ar2en (pyStrip (transcribe "ar" segment)))⟩) ∧
      (∀ mode : String,
        pyStrip (transcribe (if mode = "EN->AR" then "en" else "ar")
          segment) = "" →
        processSegment mode transcribe en2ar ar2en segment =
          ⟨if mode = "EN->AR" then "en" else "ar", none, none⟩) := by
  intro transcribe en2ar ar2en segment
  refine ⟨?_, ?_, ?_⟩
  · intro hne
    simp [processSegment, hne]
  · intro mode hmode hne
    simp [processSegment, hmode, hne]
  · intro mode hempty
    by_cases hm : mode = "EN->AR"
    · rw [hm] at hempty ⊢
      simp at hempty
      simp [processSegment, hempty]
    · simp [hm] at hempty
      simp [processSegment, hm, hempty]

open ASRTranscriber in
/-- Witness for the amended C6: an utterance transcribed as " hello "
in mode "EN->AR" yields hint "en", display "A" (the engine output) and
log "hello" (the stripped source transcript). -/
theorem c6_inference_directions_witness :
    processSegment "EN->AR" (fun _ _ => " hello ") (fun _ => "A")
      (fun t => t) [] = ⟨"en", some "A", some "hello"⟩ :=
  (c6_inference_directions (fun _ _ => " hello ") (fun _ => "A")
    (fun t => t) []).1 (by decide)

namespace ASR

/-- `ASR.set_mode` (asr.py lines 254-261): any string other than the two
enumerated modes raises `ValueError` (modelled as `Except.error`); a valid
string becomes the transcriber's new mode. -/
def set_mode (mode : String) : Except String String :=
  if mode ≠ "EN->AR" ∧ mode ≠ "AR->EN" then
    Except.error "Mode must be EN->AR or AR->EN."
  else
    Except.ok mode

/-- The transcriber-visible mode after `set_mode`: unchanged when the call
raised, the new mode otherwise. -/
def modeAfter (current mode : String) : String :=
  match set_mode mode with
  | Except.ok newMode => newMode
  | Except.error _ => current

end ASR

/-- C7: `set_mode` on any string other than "EN->AR" / "AR->EN" fails with
an invalid-argument error and leaves the observed mode unchanged; on each
of the two valid strings it succeeds and installs exactly that mode. -/
theorem c7_set_mode :
    ∀ (current mode : String),
      (mode ≠ "EN->AR" ∧ mode ≠ "AR->EN" →
        ASR.set_mode mode = Except.error "Mode must be EN->AR or AR->EN." ∧
        ASR.modeAfter current mode = current) ∧
      (mode = "EN->AR" ∨ mode = "AR->EN" →
        ASR.set_mode mode = Except.ok mode ∧
        ASR.modeAfter current mode = mode) := by
  intro current mode
  constructor
  · intro hbad
    have hset : ASR.set_mode mode =
        Except.error "Mode must be EN->AR or AR->EN." := by
      unfold ASR.set_mode
      rw [if_pos hbad]
    refine ⟨hset, ?_⟩
    unfold ASR.modeAfter
    rw [hset]
  · intro hgood
    have hcond : ¬ (mode ≠ "EN->AR" ∧ mode ≠ "AR->EN") := by
      rcases hgood with h | h <;> simp [h]
    have hset : ASR.set_mode mode = Except.ok mode := by
      unfold ASR.set_mode
      rw [if_neg hcond]
    refine ⟨hset, ?_⟩
    unfold ASR.modeAfter
    rw [hset]

/-- Witness for C7: `set_mode "FR->EN"` fails and the mode stays "EN->AR";
`set_mode "AR->EN"` succeeds and installs "AR->EN". -/
theorem c7_set_mode_witness :
    (ASR.set_mode "FR->EN" = Except.error "Mode must be EN->AR or AR->EN." ∧
      ASR.modeAfter "EN->AR" "FR->EN" = "EN->AR") ∧
    (ASR.set_mode "AR->EN" = Except.ok "AR->EN" ∧
      ASR.modeAfter "EN->AR" "AR->EN" = "AR->EN") :=
  ⟨(c7_set_mode "EN->AR" "FR->EN").1 (by decide),
    (c7_set_mode "EN->AR" "AR->EN").2 (by decide)⟩

namespace ASR

/-- The observable effects of `ASR.stop` (asr.py lines 231-252): the stop
event is set, the capture thread is joined with a 5-second bound, a `None`
sentinel is pushed to the capacity-5 segment queue — on `queue.Full` one
queued item is dequeued first and the push retried — the transcriber is
asked to interrupt, and it is waited on for 5000 ms. -/
structure StopResult where
  stop_event_set : Bool
  join_timeout_sec : ℚ
  segment_queue : List (Option (List ℚ))
  interruption_requested : Bool
  wait_ms : Nat
deriving DecidableEq, Repr

/-- `ASR.stop` as a function of the segment-queue contents (queue items
are `some` segments, the sentinel is `none`). -/
def stop (q : List (Option (List ℚ))) : StopResult :=
  { stop_event_set := true
    join_timeout_sec := 5
    segment_queue :=
      match put_nowait 5 q none with
      | Except.ok q2 => q2
      | Except.error _ =>
        let q1 := match get_nowait q with
          | Except.ok yrest => yrest.2
          | Except.error _ => q
        match put_nowait 5 q1 none with
        | Except.ok q2 => q2
        | Except.error _ => q1
    interruption_requested := true
    wait_ms := 5000 }

end ASR

/-- Draining any queue that ends with a sentinel exits via the sentinel
`break`. -/
theorem drain_reaches_sentinel :
    ∀ (q : List (Option (List ℚ))),
      (ASRTranscriber.drainUntilSentinel (q ++ [none])).2 = true := by
  intro q
  induction q with
  | nil => rfl
  | cons y rest ih =>
    cases y with
    | none => rfl
    | some s => simpa [ASRTranscriber.drainUntilSentinel] using ih

/-- C8: for every segment-queue state (at most its capacity 5), `stop`
sets the shutdown signal, joins the capture worker with a 5-second bound,
leaves a sentinel in the segment queue — evicting exactly the oldest
queued item first when the queue is full — and the inference loop's
dequeue run exits via the sentinel. -/
theorem c8_stop_sentinel :
    ∀ q : List (Option (List ℚ)), q.length ≤ 5 →
      (ASR.stop q).stop_event_set = true ∧
      (ASR.stop q).join_timeout_sec = 5 ∧
      (ASR.stop q).segment_queue =
        (if q.length = 5 then q.drop 1 else q) ++ [none] ∧
      (ASRTranscriber.drainUntilSentinel (ASR.stop q).segment_queue).2 =
        true := by
  intro q hlen
  have hqueue : (ASR.stop q).segment_queue =
      (if q.length = 5 then q.drop 1 else q) ++ [none] := by
    by_cases h5 : q.length = 5
    · rw [if_pos h5]
      cases q with
      | nil => simp at h5
      | cons y rest =>
        have hrest : rest.length = 4 := by
          simpa using h5
        simp [ASR.stop, put_nowait, get_nowait, hrest]
    · have hlt : q.length < 5 := lt_of_le_of_ne hlen h5
      rw [if_neg h5]
      simp [ASR.stop, put_nowait, hlt]
  refine ⟨rfl, rfl, hqueue, ?_⟩
  rw [hqueue]
  exact drain_reaches_sentinel _

/-- Witness for C8 on a full queue of five segments: the oldest is
evicted, the sentinel lands at the back, and the drain exits via the
sentinel. -/
theorem c8_stop_sentinel_witness :
    (ASR.stop [some [1], some [2], some [3], some [4], some [5]]).segment_queue
      = [some [2], some [3], some [4], some [5], none] ∧
    (ASRTranscriber.drainUntilSentinel
      (ASR.stop [some [1], some [2], some [3], some [4],
        some [5]]).segment_queue).2 = true := by
  have h := c8_stop_sentinel [some [1], some [2], some [3], some [4], some [5]]
    (by simp)
  exact ⟨by rw [h.2.2.1]; rfl, h.2.2.2⟩

namespace Translator

/-- `Translator.translate_en_to_ar` (translation.py lines 42-48) with the
Argos translation object as a black-box engine: calls the engine unless
the stripped input is empty, in which case it returns "" directly. -/
def translate_en_to_ar (engine : String → String) (text : String) : String :=
  if pyStrip text ≠ "" then engine text else ""

/-- `Translator.translate_ar_to_en` (translation.py lines 50-56),
identical guard in the other direction. -/
def translate_ar_to_en (engine : String → String) (text : String) : String :=
  if pyStrip text ≠ "" then engine text else ""

end Translator

/-- Keeping only the elements of `l` after the longest `p`-satisfying
prefix preserves "every element satisfies `p`". -/
theorem dropWhile_all_iff (p : Char → Bool) :
    ∀ l : List Char, (∀ c ∈ l.dropWhile p, p c) ↔ (∀ c ∈ l, p c) := by
  intro l
  induction l with
  | nil => simp
  | cons c cs ih =>
    by_cases hc : p c
    · simp [List.dropWhile_cons, hc, ih]
    · simp [List.dropWhile_cons, hc]

/-- `pyStrip` returns the empty string exactly on all-whitespace input. -/
theorem pyStrip_eq_empty_iff (s : String) :
    pyStrip s = "" ↔ ∀ c ∈ s.data, pyIsSpace c := by
  unfold pyStrip
  constructor
  · intro h
    have hdata := congrArg String.data h
    simp only [List.reverse_eq_nil_iff, List.dropWhile_eq_nil_iff,
      List.mem_reverse] at hdata
    exact (dropWhile_all_iff pyIsSpace s.data).mp hdata
  · intro hall
    have hnil : ((((s.data.dropWhile pyIsSpace).reverse).dropWhile
        pyIsSpace).reverse) = [] := by
      simp only [List.reverse_eq_nil_iff, List.dropWhile_eq_nil_iff,
        List.mem_reverse]
      exact (dropWhile_all_iff pyIsSpace s.data).mpr hall
    rw [hnil]

/-- C10: a whitespace-only input (including the empty string) makes both
translation methods return "" without invoking the underlying engine (the
result is independent of the engine); any other input returns exactly the
engine's output for the corresponding direction. -/
theorem c10_translate_blank_passthrough :
    ∀ (engineEnAr engineArEn : String → String) (text : String),
      ((∀ c ∈ text.data, pyIsSpace c) →
        Translator.translate_en_to_ar engineEnAr text = "" ∧
        Translator.translate_ar_to_en engineArEn text = "") ∧
      ((¬ ∀ c ∈ text.data, pyIsSpace c) →
        Translator.translate_en_to_ar engineEnAr text = engineEnAr text ∧
        Translator.translate_ar_to_en engineArEn text = engineArEn text) := by
  intro engineEnAr engineArEn text
  constructor
  · intro hall
    have hempty : pyStrip text = "" := (pyStrip_eq_empty_iff text).mpr hall
    constructor
    · simp [Translator.translate_en_to_ar, hempty]
    · simp [Translator.translate_ar_to_en, hempty]
  · intro hnot
    have hne : pyStrip text ≠ "" := fun h =>
      hnot ((pyStrip_eq_empty_iff text).mp h)
    constructor
    · simp [Translator.translate_en_to_ar, hne]
    · simp [Translator.translate_ar_to_en, hne]

/-- Witness for C10: the string " \t " (whitespace-only, as is the
non-breaking space U+00A0) translates to "" in both directions regardless
of the engine, and "hi" is passed to the engine verbatim. -/
theorem c10_translate_blank_passthrough_witness :
    (Translator.translate_en_to_ar (fun _ => "X") " \t " = "" ∧
      Translator.translate_ar_to_en (fun _ => "Y") " \t " = "") ∧
    (Translator.translate_en_to_ar (fun t => t ++ "!") "hi" = "hi" ++ "!" ∧
      Translator.translate_ar_to_en (fun t => t ++ "?") "hi" = "hi" ++ "?") :=
  ⟨(c10_translate_blank_passthrough (fun _ => "X") (fun _ => "Y")
      " \t ").1 (by decide),
    (c10_translate_blank_passthrough (fun t => t ++ "!") (fun t => t ++ "?")
      "hi").2 (by decide)⟩
